import Mathlib

/-!
Verification of the Google-Maps scraping engine (server.js variants).
The definitions below are a shallow embedding of the scraping logic:
rendered pages are modelled as query functions from CSS-selector strings
to elements, and each extraction routine is translated line by line from
the source.  `part_000` refers to the serverless variant, `correctcode.js`
to the click-through variant; their `extractBusinessDetails` bodies are
identical and are embedded once.
-/

namespace GMaps

/-! ## String helpers modelling the JavaScript string primitives used -/

/-- Whitespace characters recognised by JavaScript `String.prototype.trim`
(ASCII subset; the source only ever produces ASCII whitespace). -/
def isWsChar (c : Char) : Bool :=
  c = ' ' || c = '\t' || c = '\n' || c = '\r' || c = '\x0b' || c = '\x0c'

/-- Drop leading whitespace from a character list. -/
def dropWsList : List Char → List Char
  | [] => []
  | c :: rest => if isWsChar c then dropWsList rest else c :: rest

/-- Model of JavaScript `s.trim()`: strip whitespace at both ends. -/
def jsTrim (s : String) : String :=
  ⟨(dropWsList ((dropWsList s.data).reverse)).reverse⟩

/-- `lit` is a prefix of `cs` (character lists). -/
def prefixOfCL : List Char → List Char → Bool
  | [], _ => true
  | _ :: _, [] => false
  | a :: as, b :: bs => a = b && prefixOfCL as bs

/-- `needle` occurs somewhere inside `hay` (character lists). -/
def subOfCL (needle : List Char) : List Char → Bool
  | [] => prefixOfCL needle []
  | c :: rest => prefixOfCL needle (c :: rest) || subOfCL needle rest

/-- Model of JavaScript `s.includes(sub)`. -/
def hasSub (s sub : String) : Bool := subOfCL sub.data s.data

/-- Model of JavaScript `s.startsWith(pre)`. -/
def jsStartsWith (s pre : String) : Bool := prefixOfCL pre.data s.data

/-- Case-insensitive literal prefix test (for `/i` regex literals). -/
def prefixCICL : List Char → List Char → Bool
  | [], _ => true
  | _ :: _, [] => false
  | a :: as, b :: bs => a.toLower = b.toLower && prefixCICL as bs

/-- First line of a string: JavaScript `s.split('\n')[0]`. -/
def firstLine (s : String) : String := ⟨s.data.takeWhile (fun c => c ≠ '\n')⟩

/-- Everything before the first occurrence of `sep`, the whole string when
`sep` does not occur: JavaScript `s.split(sep)[0]`. -/
def splitBeforeCL (sep : List Char) : List Char → List Char
  | [] => []
  | c :: rest =>
    if prefixOfCL sep (c :: rest) then []
    else c :: splitBeforeCL sep rest

/-- Model of JavaScript `s.split(sep)[0]` for a non-empty literal `sep`. -/
def splitBefore (s sep : String) : String := ⟨splitBeforeCL sep.data s.data⟩

/-- JavaScript `\w` character class: `[A-Za-z0-9_]`. -/
def wordChar (c : Char) : Bool := c.isAlpha || c.isDigit || c = '_'

/-! ## Rendered-page model

`extractBusinessDetails` runs inside the page and only ever observes the
DOM through `document.querySelector`, `document.querySelectorAll`,
`document.body.innerText`, and, on a located element, its `textContent`,
`aria-label`/`href` attributes, a nested `.Io6YTe` child and (for hours
tables) its `tr` rows.  A page state is therefore modelled as the answers
to exactly those observations. -/

/-- One row of an opening-hours table: the trimmed-later text contents of
its `.ylH6lf, .x4hIce` (day) and `.mxowUb, .G8aQO` (hours) children,
`none` when the optional-chained lookup yields no element. -/
structure HoursRow where
  day : Option String := none
  hours : Option String := none
deriving DecidableEq

/-- A located DOM element, reduced to the observations the source makes. -/
structure Element where
  textContent : String := ""
  ariaLabel : Option String := none
  href : Option String := none
  /-- `textContent` of `element.querySelector('.Io6YTe')`, `none` when absent. -/
  ioText : Option String := none
  /-- rows returned by `querySelectorAll('tr.y0skZc, tr')` on an hours table. -/
  rows : List HoursRow := []
deriving DecidableEq

/-- A rendered detail page: selector-indexed DOM lookups plus the visible
body text (`document.body.innerText`). -/
structure Page where
  querySelector : String → Option Element
  querySelectorAll : String → List Element
  bodyText : String

/-! ## Regex models

The source matches a handful of regex literals against page text.  Each is
implemented here as an explicit backtracking scanner with JavaScript
leftmost-match semantics. -/

/-- Character class `[\w.-]` of the email regex. -/
def emailCC (c : Char) : Bool := wordChar c || c = '.' || c = '-'

/-- Backtracking for `[\w.-]+\.\w+` inside the maximal class run `run`
after the `@`: find the largest split `j ≥ 1` with `run[j] = '.'` followed
by a word character, as the greedy JavaScript engine would. -/
def emailTailAux (run : List Char) : Nat → Option (List Char)
  | 0 => none
  | j + 1 =>
    match run.get? (j + 1), run.get? (j + 2) with
    | some '.', some c =>
      if wordChar c then
        some (run.take (j + 1) ++ '.' :: (run.drop (j + 2)).takeWhile wordChar)
      else emailTailAux run j
    | _, _ => emailTailAux run j

/-- Attempt to match `/[\w.-]+@[\w.-]+\.\w+/` at the head of `cs`. -/
def matchEmailAt (cs : List Char) : Option (List Char) :=
  let p1 := cs.takeWhile emailCC
  if p1 = [] then none
  else
    match cs.drop p1.length with
    | '@' :: r2 =>
      let run := r2.takeWhile emailCC
      match emailTailAux run run.length with
      | some t => some (p1 ++ '@' :: t)
      | none => none
    | _ => none

/-- Leftmost match of the email regex over the whole text. -/
def findEmailCL : List Char → Option (List Char)
  | [] => none
  | c :: rest =>
    match matchEmailAt (c :: rest) with
    | some m => some m
    | none => findEmailCL rest

/-- Model of `pageText.match(/[\w.-]+@[\w.-]+\.\w+/)`, group 0. -/
def findEmail (s : String) : Option String :=
  (findEmailCL s.data).map (fun m => ⟨m⟩)

/-- After the captured number, `\s*` then the literal `reviews?`
(case-insensitive) must follow. -/
def reviewsAfterOk (rest : List Char) : Bool :=
  prefixCICL "review".data (rest.dropWhile isWsChar)

/-- Greedy `(,\d{3})*` with backtracking: consume as many `,ddd` groups as
possible, unwinding to fewer groups until `\s*reviews?` matches after. -/
def reviewsGroupsRec (g1 : List Char) (rest : List Char) : Option (List Char) :=
  match rest with
  | ',' :: a :: b :: c :: r2 =>
    if a.isDigit && b.isDigit && c.isDigit then
      match reviewsGroupsRec (g1 ++ [',', a, b, c]) r2 with
      | some m => some m
      | none => if reviewsAfterOk rest then some g1 else none
    else if reviewsAfterOk rest then some g1 else none
  | _ => if reviewsAfterOk rest then some g1 else none

/-- `\d{1,3}` taking exactly `k` digits at the head of `cs`. -/
def splitDigits (cs : List Char) (k : Nat) : Option (List Char × List Char) :=
  let g := cs.take k
  if g.length = k && g.all Char.isDigit then some (g, cs.drop k) else none

/-- Attempt `/(\d{1,3}(?:,\d{3})*)\s*reviews?/i` at the head of `cs`,
returning capture group 1; digit counts are tried greedily (3, 2, 1). -/
def tryReviewsAt (cs : List Char) : Option (List Char) :=
  let att := fun (k : Nat) =>
    match splitDigits cs k with
    | some pr => reviewsGroupsRec pr.1 pr.2
    | none => none
  match att 3 with
  | some m => some m
  | none =>
    match att 2 with
    | some m => some m
    | none => att 1

/-- Leftmost match of the first reviews regex. -/
def findReviews1CL : List Char → Option (List Char)
  | [] => none
  | c :: rest =>
    match tryReviewsAt (c :: rest) with
    | some m => some m
    | none => findReviews1CL rest

/-- Model of `text.match(/(\d{1,3}(?:,\d{3})*)\s*reviews?/i)`, group 1. -/
def findReviews1 (s : String) : Option String :=
  (findReviews1CL s.data).map (fun m => ⟨m⟩)

/-- Greedy `(,\d{3})*` with nothing required after (end of pattern). -/
def commaGroupsAll : List Char → List Char
  | ',' :: a :: b :: c :: r2 =>
    if a.isDigit && b.isDigit && c.isDigit then
      ',' :: a :: b :: c :: commaGroupsAll r2
    else []
  | _ => []

/-- Attempt `/reviews?[^0-9]*(\d{1,3}(?:,\d{3})*)/i` at the head of `cs`. -/
def tryReviews2At (cs : List Char) : Option (List Char) :=
  if prefixCICL "review".data cs then
    let r := cs.drop 6
    let r := match r with
      | c :: r2 => if c = 's' || c = 'S' then r2 else r
      | [] => r
    let r2 := r.dropWhile (fun c => !c.isDigit)
    match r2 with
    | [] => none
    | _ =>
      let ds := r2.takeWhile Char.isDigit
      let g1 := ds.take 3
      some (g1 ++ commaGroupsAll (r2.drop g1.length))
  else none

/-- Leftmost match of the second reviews regex. -/
def findReviews2CL : List Char → Option (List Char)
  | [] => none
  | c :: rest =>
    match tryReviews2At (c :: rest) with
    | some m => some m
    | none => findReviews2CL rest

/-- Model of `text.match(/reviews?[^0-9]*(\d{1,3}(?:,\d{3})*)/i)`, group 1. -/
def findReviews2 (s : String) : Option String :=
  (findReviews2CL s.data).map (fun m => ⟨m⟩)

/-- Attempt `label` + `\s*([^.,;]+)` at the head of `cs` (case-insensitive),
returning the trimmed capture when the raw capture is truthy; the greedy
`\s*` gives back trailing whitespace into the capture when nothing else
can satisfy `[^.,;]+`, yielding an empty trimmed value. -/
def tryLabeledAt (label : List Char) (cs : List Char) : Option String :=
  if prefixCICL label cs then
    let rest := cs.drop label.length
    let ws := rest.takeWhile isWsChar
    let rest2 := rest.drop ws.length
    let grp := rest2.takeWhile (fun c => c ≠ '.' && c ≠ ',' && c ≠ ';')
    if grp ≠ [] then some (jsTrim ⟨grp⟩)
    else if ws ≠ [] then some ""
    else none
  else none

/-- Leftmost match of `label\s*([^.,;]+)` case-insensitively. -/
def findLabeledCL (label : List Char) : List Char → Option String
  | [] => none
  | c :: rest =>
    match tryLabeledAt label (c :: rest) with
    | some v => some v
    | none => findLabeledCL label rest

/-- Model of `pageText.match(/Label:\s*([^.,;]+)/i)` followed by
`match[1].trim()` (with the truthiness test on the raw group). -/
def findLabeled (label s : String) : Option String :=
  findLabeledCL label.data s.data

/-! ## Field resolvers of `extractBusinessDetails`

Selector lists and per-field logic translated from
`src/unnamed/part_000` lines 378-685 (`src/correctcode.js` lines 461-768
are textually identical). -/

/-- First selector in the cascade that locates an element: the shared
`for (const selector of ...) { const e = document.querySelector(selector);
if (e) { ...; break; } }` shape. -/
def firstQuery (p : Page) : List String → Option Element
  | [] => none
  | s :: rest =>
    match p.querySelector s with
    | some e => some e
    | none => firstQuery p rest

def nameSelectors : List String :=
  ["h1.fontHeadlineLarge",
   "div[role=\"main\"] div[role=\"heading\"]",
   "h1.DUwDvf",
   "h1.x3AX1-LfntMc-header-title-title",
   "div.x3AX1-LfntMc-header-title-title",
   "div.qBF1Pd-haAclf"]

/-- `details.name`: set only when a selector matches; no sentinel default. -/
def extractName (p : Page) : Option String :=
  (firstQuery p nameSelectors).map (fun e => jsTrim e.textContent)

def addressSelectors : List String :=
  ["button[data-item-id=\"address\"]",
   "button[jsaction*=\"address\"]",
   "button[aria-label*=\"Address\"]",
   "button.CsEnBe[aria-label]",
   "div[role=\"button\"][aria-label*=\"Address\"]"]

/-- `details.address`: first located element; its `.Io6YTe` child text when
present, its own text otherwise; default `"N/A"`. -/
def extractAddress (p : Page) : String :=
  match firstQuery p addressSelectors with
  | none => "N/A"
  | some e =>
    match e.ioText with
    | some t => jsTrim t
    | none => jsTrim e.textContent

def phoneSelectors : List String :=
  ["button[data-item-id^=\"phone:tel:\"]",
   "button[aria-label*=\"Phone\"]",
   "div[role=\"button\"][aria-label*=\"Phone\"]",
   "a[data-item-id^=\"phone\"]",
   "a[href^=\"tel:\"]"]

/-- `details.phone`: `.Io6YTe` child text, else a `tel:` href with the
scheme stripped, else own text; default `"N/A"`. -/
def extractPhone (p : Page) : String :=
  match firstQuery p phoneSelectors with
  | none => "N/A"
  | some e =>
    match e.ioText with
    | some t => jsTrim t
    | none =>
      match e.href with
      | some h =>
        if h ≠ "" && jsStartsWith h "tel:" then ⟨h.data.drop 4⟩
        else jsTrim e.textContent
      | none => jsTrim e.textContent

def websiteSelectors : List String :=
  ["a[data-item-id=\"authority\"]",
   "a[aria-label*=\"website\"]",
   "a[aria-label*=\"Website\"]",
   "a[href^=\"https://\"][data-item-id]",
   "div[role=\"button\"][aria-label*=\"website\"]"]

/-- `details.website`: `.Io6YTe` child text, else a non-Google href, else
own text; default `"N/A"`. -/
def extractWebsite (p : Page) : String :=
  match firstQuery p websiteSelectors with
  | none => "N/A"
  | some e =>
    match e.ioText with
    | some t => jsTrim t
    | none =>
      match e.href with
      | some h =>
        if h ≠ "" && !hasSub h "google.com" then h
        else jsTrim e.textContent
      | none => jsTrim e.textContent

def ratingSelectors : List String :=
  ["span.ceJTW",
   "span.ODSEW-ShBeI-H1e3jb",
   "span[aria-hidden=\"true\"][role=\"img\"]",
   "div.F7nice",
   "span.iRCJncVPvXIc4GMcvvB9"]

/-- The rating regex `/^\d(\.\d)?$/`: a digit, optionally followed by a
dot and one digit.  Note: no upper bound of 5 is enforced here. -/
def ratingShape (s : String) : Bool :=
  match s.data with
  | [a] => a.isDigit
  | [a, b, c] => a.isDigit && b = '.' && c.isDigit
  | _ => false

/-- `parseFloat(text) <= 5` for a string already matching `ratingShape`. -/
def ratingLe5 (s : String) : Bool :=
  match s.data with
  | [a] => a ≤ '5'
  | [a, _, c] => a < '5' || (a = '5' && c = '0')
  | _ => false

/-- Rating method 1: cascade over `ratingSelectors`; a located element
whose (truthy) text fails the regex is skipped and the cascade continues. -/
def ratingFirstPass (p : Page) : List String → String
  | [] => "N/A"
  | s :: rest =>
    match p.querySelector s with
    | some e =>
      if e.textContent ≠ "" then
        let t := jsTrim e.textContent
        if ratingShape t then t else ratingFirstPass p rest
      else ratingFirstPass p rest
    | none => ratingFirstPass p rest

/-- Rating method 2 span predicate: trimmed text of length at most 3,
matching the regex, with `parseFloat` at most 5. -/
def ratingSpanPred (sp : Element) : Bool :=
  let t := jsTrim sp.textContent
  decide (t.data.length ≤ 3) && ratingShape t && ratingLe5 t

/-- `details.rating`: method 1, then the all-spans scan when still `"N/A"`. -/
def extractRating (p : Page) : String :=
  let r1 := ratingFirstPass p ratingSelectors
  if r1 = "N/A" then
    match (p.querySelectorAll "span").find? ratingSpanPred with
    | some sp => jsTrim sp.textContent
    | none => "N/A"
  else r1

/-- Reviews method 1: first container whose raw text matches regex 1. -/
def reviewsFromContainers : List Element → Option String
  | [] => none
  | c :: rest =>
    match findReviews1 c.textContent with
    | some v => some v
    | none => reviewsFromContainers rest

/-- `details.reviews`: containers first, then the two body-text regexes. -/
def extractReviews (p : Page) : String :=
  match reviewsFromContainers
      (p.querySelectorAll "span.F7nice, div.F7nice, div.review-score") with
  | some v => v
  | none =>
    match findReviews1 p.bodyText with
    | some v => v
    | none =>
      match findReviews2 p.bodyText with
      | some v => v
      | none => "N/A"

/-- One hours-table row: `day && hours` after trimming, pushed as
`"day: hours"`. -/
def rowLine (r : HoursRow) : Option String :=
  match r.day, r.hours with
  | some d, some h =>
    let d2 := jsTrim d
    let h2 := jsTrim h
    if d2 ≠ "" && h2 ≠ "" then some (d2 ++ ": " ++ h2) else none
  | _, _ => none

def hoursTableSelectors : List String :=
  ["table.eK4R0e", "table.WgFkxc", "div[role=\"region\"][aria-label*=\"hour\"]"]

/-- Hours method 1: first table whose rows yield at least one valid
day/hours line, joined with `"; "`. -/
def hoursFromTables (p : Page) : List String → Option String
  | [] => none
  | s :: rest =>
    match p.querySelector s with
    | some tbl =>
      let lines := tbl.rows.filterMap rowLine
      if lines ≠ [] then some (String.intercalate "; " lines)
      else hoursFromTables p rest
    | none => hoursFromTables p rest

def hoursSectionSelectors : List String :=
  [".OMl5r", ".VaxuYe", ".G8aQO", "[aria-label*=\"hour\"]"]

/-- `details.hours`: table method, then first hours section, then `"N/A"`. -/
def extractHours (p : Page) : String :=
  match hoursFromTables p hoursTableSelectors with
  | some v => v
  | none =>
    match firstQuery p hoursSectionSelectors with
    | some e => jsTrim e.textContent
    | none => "N/A"

/-- `details.email`: the body-text email regex, else `"N/A"`. -/
def extractEmail (p : Page) : String :=
  match findEmail p.bodyText with
  | some m => m
  | none => "N/A"

def categorySelectors : List String :=
  ["a.CsEnBe",
   "button[jsaction*=\"pane.rating.category\"]",
   "button.DkEaL",
   "span[jsaction*=\"category\"]",
   "button[aria-label*=\"categor\"]"]

/-- The category element filter of method 1 (`website` is the already
resolved website string). -/
def catCond (website t : String) : Bool :=
  t ≠ "" && decide (t.data.length < 30) && !hasSub t "http" && !hasSub t "@"
    && !(match t.data with | c :: _ => c.isDigit | [] => false)
    && t ≠ "Menu" && t ≠ website && !hasSub t "Phone:"

/-- One selector of category method 1: `forEach` overwrites, so the last
passing element of the selector wins. -/
def catFold (website : String) (cat : String) (es : List Element) : String :=
  es.foldl (fun c e => let t := jsTrim e.textContent; if catCond website t then t else c) cat

/-- Category method 1: stop at the first selector producing a value other
than `"N/A"`. -/
def catLoop (p : Page) (website : String) : List String → String
  | [] => "N/A"
  | s :: rest =>
    let c := catFold website "N/A" (p.querySelectorAll s)
    if c ≠ "N/A" then c else catLoop p website rest

/-- `details.category`: method 1, then `Category:`/`Type:` body-text scans. -/
def extractCategory (p : Page) (website : String) : String :=
  let c := catLoop p website categorySelectors
  if c = "N/A" then
    match findLabeled "Category:" p.bodyText with
    | some v => v
    | none =>
      match findLabeled "Type:" p.bodyText with
      | some v => v
      | none => "N/A"
  else c

def attributeSelectors : List String :=
  [".RcCsl .AeaXub .Io6YTe span", ".ggc0ld .Io6YTe", ".q5X0Ue", "div.PODJx"]

/-- The attributes element filter; `nameO` is `details.name`, possibly
absent (a JavaScript comparison against `undefined` is always unequal). -/
def attrCond (nameO : Option String) (addr phone web cat t : String) : Bool :=
  t ≠ "" && (match nameO with | some n => t ≠ n | none => true)
    && t ≠ addr && t ≠ phone && t ≠ web && t ≠ cat
    && decide (t.data.length < 50)

/-- `details.attributes`: texts passing the filter are accumulated across
ALL four selectors (the loop has no break), then joined with `", "`;
the key is only set when at least one attribute was collected. -/
def extractAttributes (p : Page) (nameO : Option String)
    (addr phone web cat : String) : Option String :=
  let l := attributeSelectors.foldl
    (fun acc s => acc ++ (p.querySelectorAll s).filterMap
      (fun e =>
        let t := jsTrim e.textContent
        if attrCond nameO addr phone web cat t then some t else none)) []
  if l ≠ [] then some (String.intercalate ", " l) else none

def priceSelectors : List String :=
  [".MNVeJb", "span.mgr77e", "span[aria-label*=\"Price\"]"]

/-- `details.priceRange`: first located element's trimmed text, cut before
`"Reported by"` and trimmed again; the key is only set when an element
was located. -/
def extractPrice (p : Page) : Option String :=
  (firstQuery p priceSelectors).map
    (fun e => jsTrim (splitBefore (jsTrim e.textContent) "Reported by"))

/-- The `details` object built by `extractBusinessDetails`: each field is
`none` exactly when the corresponding key was never assigned. -/
structure BusinessDetails where
  name : Option String := none
  address : Option String := none
  phone : Option String := none
  website : Option String := none
  rating : Option String := none
  reviews : Option String := none
  hours : Option String := none
  email : Option String := none
  category : Option String := none
  attributes : Option String := none
  priceRange : Option String := none
deriving DecidableEq

/-- `extractBusinessDetails(page)` (part_000 378-685 / correctcode.js
461-768): resolve every field against the same page state; `category`
reuses the resolved website, `attributes` the resolved name, address,
phone, website and category. -/
def extractBusinessDetails (p : Page) : BusinessDetails :=
  let name := extractName p
  let address := extractAddress p
  let phone := extractPhone p
  let website := extractWebsite p
  let category := extractCategory p website
  { name := name
    address := some address
    phone := some phone
    website := some website
    rating := some (extractRating p)
    reviews := some (extractReviews p)
    hours := some (extractHours p)
    email := some (extractEmail p)
    category := some category
    attributes := extractAttributes p name address phone website category
    priceRange := extractPrice p }

/-! ## Listing discovery (`collectListingUrls`, part_000 lines 221-320) -/

/-- A listing reference: `{ name, url }` pushed by the harvest. -/
structure Listing where
  name : String
  url : String
deriving DecidableEq

/-- A harvested anchor candidate, reduced to the observations the harvest
makes: `href`, `aria-label`, the heading text found under
`closest('div')`, its own `textContent`, and the `closest('div')` text. -/
structure LinkEl where
  href : String := ""
  ariaLabel : Option String := none
  headingText : Option String := none
  textContent : String := ""
  closestDivText : String := ""
deriving DecidableEq

/-- The results feed at one instant, observed through `querySelectorAll`. -/
structure FeedPage where
  querySelectorAll : String → List LinkEl

def listingLinkSelectors : List String :=
  ["a.hfpxzc",
   ".Nv2PK a[href*=\"/maps/place/\"]",
   "div[role=\"article\"] a[data-value]",
   "a[jsaction*=\"mouseup\"]",
   "a[aria-label][href*=\"/maps/place/\"]"]

/-- First selector yielding a non-empty element list; the lists are never
merged (`break` on the first hit). -/
def firstNonEmptyAll (fp : FeedPage) : List String → List LinkEl
  | [] => []
  | s :: rest =>
    let es := fp.querySelectorAll s
    if es ≠ [] then es else firstNonEmptyAll fp rest

/-- Candidate name: truthy `aria-label`, else nearby heading text
(trimmed), else the first line of the link's own (or enclosing div's)
trimmed text, trimmed again. -/
def deriveName (l : LinkEl) : String :=
  let fallback :=
    match l.headingText with
    | some h => jsTrim h
    | none =>
      let base := if l.textContent ≠ "" then l.textContent else l.closestDivText
      jsTrim (firstLine (jsTrim base))
  match l.ariaLabel with
  | some a => if a ≠ "" then a else fallback
  | none => fallback

/-- One `page.evaluate` harvest: candidates from the first non-empty
selector, kept when both url and name are truthy and the url contains
`/maps/place/`. -/
def harvestListings (fp : FeedPage) : List Listing :=
  (firstNonEmptyAll fp listingLinkSelectors).filterMap
    (fun l =>
      let url := l.href
      let name := deriveName l
      if url ≠ "" && name ≠ "" && hasSub url "/maps/place/" then
        some ⟨name, url⟩
      else none)

/-- Append the batch items whose url is not already collected, breaking
once the limit is reached; the Boolean is `addedNewUrls`. -/
def addUnique (acc : List Listing) (batch : List Listing) (limit : Int) :
    List Listing × Bool :=
  match batch with
  | [] => (acc, false)
  | item :: rest =>
    if acc.any (fun e => e.url = item.url) then
      addUnique acc rest limit
    else
      let acc2 := acc ++ [item]
      if (acc2.length : Int) ≥ limit then (acc2, true)
      else
        let r := addUnique acc2 rest limit
        (r.1, true)

/-- The scroll-and-harvest loop.  `fuel` is
`maxScrollAttempts - scrollAttempts` (so `fuel = 0` is exactly the
exhaustion condition `scrollAttempts >= 30` and each iteration that
scrolls decrements it); `c` is `consecutiveNoNewUrls`; `batches t` is the
harvest of iteration `t`.  Returns the collected listings and the number
of loop-body executions. -/
def loopGo (batches : Nat → List Listing) (limit : Int) :
    Nat → Nat → Nat → List Listing → List Listing × Nat
  | 0, _, _, acc => (acc, 0)
  | fuel + 1, t, c, acc =>
    if ((acc.length : Int) < limit ∧ c < 5) then
      let pr := addUnique acc (batches t) limit
      let c2 := if pr.2 then 0 else c + 1
      if (pr.1.length : Int) < limit then
        let r := loopGo batches limit fuel (t + 1) c2 pr.1
        (r.1, r.2 + 1)
      else (pr.1, 1)
    else (acc, 0)

/-- `maxScrollAttempts` of `collectListingUrls`. -/
def maxScrollAttempts : Nat := 30

/-- JavaScript `l.slice(0, e)`: a negative end counts from the end. -/
def jsSliceTo (l : List α) (e : Int) : List α :=
  if 0 ≤ e then l.take e.toNat
  else l.take ((l.length : Int) + e).toNat

/-- `collectListingUrls(page, limit)`: run the loop from a fresh state and
return at most `limit` references. -/
def collectListingUrls (feed : Nat → FeedPage) (limit : Int) : List Listing :=
  jsSliceTo (loopGo (fun t => harvestListings (feed t)) limit
      maxScrollAttempts 0 0 []).1 limit

/-- Number of loop-body executions performed by `collectListingUrls`. -/
def collectCount (feed : Nat → FeedPage) (limit : Int) : Nat :=
  (loopGo (fun t => harvestListings (feed t)) limit maxScrollAttempts 0 0 []).2

/-! ## Scrape orchestrator (part_000 `scrapeGoogleMaps`, lines 149-217) -/

/-- `{ name, ...detailedInfo }`: the listing name, overridden by the
in-page name when the extractor resolved one. -/
def mergeRecord (listingName : String) (pg : Page) : BusinessDetails :=
  let d := extractBusinessDetails pg
  { d with name := some (d.name.getD listingName) }

/-- Session state observed by the per-listing loop: how many detail pages
are currently open, and the records pushed so far. -/
structure SessState where
  openPages : Nat
  records : List BusinessDetails
deriving DecidableEq

/-- One iteration of the per-listing loop: `browser.newPage()` opens a
page; `nav` models the fallible navigation/wait/extraction up to a usable
page state.  On success the record is pushed and the page closed; the
catch path logs and continues WITHOUT closing the page it opened. -/
def sessionStep (nav : Nat → Listing → Except String Page)
    (i : Nat) (l : Listing) (st : SessState) : SessState :=
  let stOpen : SessState := { st with openPages := st.openPages + 1 }
  match nav i l with
  | Except.error _ => stOpen
  | Except.ok pg =>
    { openPages := stOpen.openPages - 1
      records := stOpen.records ++ [mergeRecord l.name pg] }

/-- The per-listing loop over the collected listings. -/
def runSessionAux (nav : Nat → Listing → Except String Page) :
    Nat → List Listing → SessState → SessState
  | _, [], st => st
  | i, l :: rest, st => runSessionAux nav (i + 1) rest (sessionStep nav i l st)

/-- Run the whole per-listing phase from a fresh session state. -/
def runSession (nav : Nat → Listing → Except String Page)
    (ls : List Listing) : SessState :=
  runSessionAux nav 0 ls { openPages := 0, records := [] }

/-- `scrapeGoogleMaps(searchQuery, limit)` data path: discovery, then the
per-listing loop; returns the pushed records. -/
def scrapeGoogleMapsRecords (feed : Nat → FeedPage)
    (nav : Nat → Listing → Except String Page) (limit : Int) :
    List BusinessDetails :=
  (runSession nav (collectListingUrls feed limit)).records

/-- The whole `scrapeGoogleMaps` with its try/finally: `launch` models
`puppeteerCore.launch`, `search` the search-page setup and navigation
(session-fatal when it throws).  The Boolean records whether the
`finally` block closed the browser (it is null only when launch threw). -/
def scrapeSession (launch : Bool) (search : Except String Unit)
    (feed : Nat → FeedPage) (nav : Nat → Listing → Except String Page)
    (limit : Int) : Except String (List BusinessDetails) × Bool :=
  if launch = false then (Except.error "launch failed", false)
  else
    match search with
    | Except.error e => (Except.error e, true)
    | Except.ok _ => (Except.ok (scrapeGoogleMapsRecords feed nav limit), true)

/-! ## HTTP endpoint `POST /api/scrape` (part_000 lines 21-37) -/

/-- The request body: every key may be absent. -/
structure ScrapeBody where
  query : Option String := none
  location : Option String := none
  limit : Option Int := none

/-- The endpoint's response as seen by the caller. -/
inductive ScrapeResponse where
  | ok (data : List BusinessDetails)
  | badRequest (msg : String)
deriving DecidableEq

/-- The `/api/scrape` handler: default `limit` to 20 only when the key is
absent, reject missing/empty `query` or `location`, otherwise run the
scrape and answer `{ success: true, data }`. -/
def handleScrape (body : ScrapeBody) (feed : Nat → FeedPage)
    (nav : Nat → Listing → Except String Page) : ScrapeResponse :=
  let q := body.query.getD ""
  let loc := body.location.getD ""
  if q = "" || loc = "" then
    ScrapeResponse.badRequest "Query and location are required"
  else
    let limit := body.limit.getD 20
    ScrapeResponse.ok (scrapeGoogleMapsRecords feed nav limit)

/-! ## Export encoders: field order (part_000 688-741, correctcode.js
814-868) -/

/-- The spec's required export field order (spec §6, "Export encoders"). -/
def specExportOrder : List String :=
  ["name", "address", "phone", "website", "email", "rating", "reviews",
   "hours", "category", "priceRange", "attributes"]

/-- `exportToExcel` worksheet columns, header and key, in declared order
(identical in both variants). -/
def excelColumns : List (String × String) :=
  [("Name", "name"), ("Address", "address"), ("Phone", "phone"),
   ("Website", "website"), ("Email", "email"), ("Rating", "rating"),
   ("Reviews", "reviews"), ("Hours", "hours"), ("Category", "category"),
   ("Price Range", "priceRange"), ("Attributes", "attributes")]

/-- `exportToCSV` field list in `src/unnamed/part_000` (line 734). -/
def csvFields : List String :=
  ["name", "address", "phone", "website", "email", "rating", "reviews",
   "hours", "category", "priceRange", "attributes"]

/-- `exportToCSV` field list in `src/correctcode.js` (line 861). -/
def csvFieldsCorrectcode : List String :=
  ["name", "address", "phone", "website", "email", "rating", "reviews",
   "hours", "category"]

/-! ## Concrete page states used as evidence -/

/-- A page exposing nothing at all. -/
def pageEmpty : Page :=
  { querySelector := fun _ => none
    querySelectorAll := fun _ => []
    bodyText := "" }

/-- A detail page exposing only a business name and a rating. -/
def pageNameRating : Page :=
  { querySelector := fun s =>
      if s = "h1.fontHeadlineLarge" then some { textContent := "Blue Bottle Coffee" }
      else if s = "span.ceJTW" then some { textContent := "4.5" }
      else none
    querySelectorAll := fun _ => []
    bodyText := "" }

/-- A page whose first rating container carries the text `9.9`. -/
def pageBadRating : Page :=
  { querySelector := fun s =>
      if s = "span.ceJTW" then some { textContent := "9.9" } else none
    querySelectorAll := fun _ => []
    bodyText := "" }

/-- A page whose first rating container carries non-numeric text. -/
def pageTextRating : Page :=
  { querySelector := fun s =>
      if s = "span.ceJTW" then some { textContent := "Great" } else none
    querySelectorAll := fun _ => []
    bodyText := "" }

/-- A page on which two different attribute selectors each yield text. -/
def pageTwoAttrs : Page :=
  { querySelector := fun _ => none
    querySelectorAll := fun s =>
      if s = ".RcCsl .AeaXub .Io6YTe span" then
        [{ textContent := "Wheelchair accessible" }]
      else if s = ".ggc0ld .Io6YTe" then
        [{ textContent := "Latino-owned" }]
      else []
    bodyText := "" }

/-- A feed page with no listings at all. -/
def feedEmpty : FeedPage := { querySelectorAll := fun _ => [] }

/-- A feed page exposing two distinct listings (and a duplicate of the
first) through the primary selector. -/
def feedTwo : FeedPage :=
  { querySelectorAll := fun s =>
      if s = "a.hfpxzc" then
        [{ href := "https://www.google.com/maps/place/alpha"
           ariaLabel := some "Cafe Alpha" },
         { href := "https://www.google.com/maps/place/alpha"
           ariaLabel := some "Cafe Alpha" },
         { href := "https://www.google.com/maps/place/beta"
           ariaLabel := some "Cafe Beta" }]
      else [] }

/-- Three discovered listings for the partial-failure scenario. -/
def demoListings : List Listing :=
  [⟨"Cafe One", "https://www.google.com/maps/place/one"⟩,
   ⟨"Cafe Two", "https://www.google.com/maps/place/two"⟩,
   ⟨"Cafe Three", "https://www.google.com/maps/place/three"⟩]

/-- Navigation that throws exactly on the second listing (index 1). -/
def navDemo : Nat → Listing → Except String Page :=
  fun i _ => if i = 1 then Except.error "Navigation timeout" else Except.ok pageEmpty

/-- Spec-side predicate, following the spec's words: `rating` must match a
0-to-5, one-decimal pattern (a digit, optionally a dot and one decimal,
denoting a value of at most 5). -/
def specRatingZeroToFive (s : String) : Bool :=
  match s.data with
  | [a] => a.isDigit && a ≤ '5'
  | [a, b, c] => a.isDigit && b = '.' && c.isDigit && (a < '5' || (a = '5' && c = '0'))
  | _ => false

/-- Outcome of one listing of the per-listing loop, as an optional record:
the merged record on success, nothing when navigation/extraction threw. -/
def navRecord (nav : Nat → Listing → Except String Page)
    (pr : Nat × Listing) : Option BusinessDetails :=
  match nav pr.1 pr.2 with
  | Except.ok pg => some (mergeRecord pr.2.name pg)
  | Except.error _ => none

/-! # Theorems -/

/-! ## Helper lemmas -/

/-- `addUnique` preserves pairwise-distinct urls. -/
theorem addUnique_nodup (limit : Int) :
    ∀ (batch acc : List Listing), (acc.map Listing.url).Nodup →
      ((addUnique acc batch limit).1.map Listing.url).Nodup := by
  intro batch
  induction batch with
  | nil => intro acc h; simpa [addUnique] using h
  | cons item rest ih =>
    intro acc h
    by_cases hmem : acc.any (fun e => e.url = item.url)
    · simpa [addUnique, hmem] using ih acc h
    · have hnotin : item.url ∉ acc.map Listing.url := by
        simp only [List.any_eq_true, decide_eq_true_eq] at hmem
        simp only [List.mem_map]
        rintro ⟨a, ha, he⟩
        exact hmem ⟨a, ha, he⟩
      have h2 : ((acc ++ [item]).map Listing.url).Nodup := by
        rw [List.map_append]
        simp [List.nodup_append, h, hnotin]
      simp only [addUnique]
      rw [if_neg hmem]
      split
      · simpa using h2
      · simpa using ih (acc ++ [item]) h2

/-- The discovery loop preserves pairwise-distinct urls. -/
theorem loopGo_nodup (batches : Nat → List Listing) (limit : Int) :
    ∀ (fuel t c : Nat) (acc : List Listing), (acc.map Listing.url).Nodup →
      ((loopGo batches limit fuel t c acc).1.map Listing.url).Nodup := by
  intro fuel
  induction fuel with
  | zero => intro t c acc h; simpa [loopGo] using h
  | succ fuel ih =>
    intro t c acc h
    simp only [loopGo]
    split
    · split
      · exact ih _ _ _ (addUnique_nodup limit _ acc h)
      · exact addUnique_nodup limit _ acc h
    · exact h

/-- `jsSliceTo` only ever takes a prefix. -/
theorem jsSliceTo_sublist (l : List α) (e : Int) : (jsSliceTo l e).Sublist l := by
  unfold jsSliceTo
  split
  · exact List.take_sublist _ _
  · exact List.take_sublist _ _

/-- The loop performs at most `fuel + 1` iterations. -/
theorem loopGo_count_le (batches : Nat → List Listing) (limit : Int) :
    ∀ (fuel t c : Nat) (acc : List Listing),
      (loopGo batches limit fuel t c acc).2 ≤ fuel + 1 := by
  intro fuel
  induction fuel with
  | zero => intro t c acc; simp [loopGo]
  | succ fuel ih =>
    intro t c acc
    simp only [loopGo]
    split
    · split
      · have := ih (t + 1) (if (addUnique acc (batches t) limit).2 then 0 else c + 1)
          (addUnique acc (batches t) limit).1
        omega
      · omega
    · omega

/-- A feed that never yields a listing: the loop stagnates, performing
exactly `5 - c` further iterations and collecting nothing. -/
theorem loopGo_stagnation (batches : Nat → List Listing) (limit : Int)
    (hb : ∀ t, batches t = []) (hl : 0 < limit) :
    ∀ (fuel c t : Nat), 5 - c ≤ fuel → c ≤ 5 →
      loopGo batches limit fuel t c [] = ([], 5 - c) := by
  intro fuel
  induction fuel with
  | zero =>
    intro c t h1 h2
    have hc : c = 5 := by omega
    simp [loopGo, hc]
  | succ fuel ih =>
    intro c t h1 h2
    by_cases hc : c < 5
    · have hcond : ((([] : List Listing).length : Int) < limit ∧ c < 5) := by
        constructor
        · simpa using hl
        · exact hc
      have hadd : addUnique [] (batches t) limit = ([], false) := by
        rw [hb t]; rfl
      have hrec : loopGo batches limit fuel (t + 1) (c + 1) [] = ([], 5 - (c + 1)) :=
        ih (c + 1) (t + 1) (by omega) (by omega)
      simp only [loopGo, hadd]
      rw [if_pos hcond]
      simp only [Bool.false_eq_true, if_false]
      rw [if_pos (by simpa using hl)]
      rw [hrec]
      simp
      omega
    · have hc5 : c = 5 := by omega
      simp [loopGo, hc5]

/-- With a non-positive limit the loop body never executes. -/
theorem loopGo_nonpos (batches : Nat → List Listing) (limit : Int)
    (hl : limit ≤ 0) :
    ∀ (fuel t c : Nat), loopGo batches limit fuel t c [] = ([], 0) := by
  intro fuel t c
  cases fuel with
  | zero => rfl
  | succ fuel =>
    simp only [loopGo]
    rw [if_neg]
    intro h
    have h1 := h.1
    simp only [List.length_nil, Nat.cast_zero] at h1
    omega

/-- Records pushed by the per-listing loop: one per successful listing,
in iteration order. -/
theorem runSessionAux_records (nav : Nat → Listing → Except String Page) :
    ∀ (ls : List Listing) (i : Nat) (st : SessState),
      (runSessionAux nav i ls st).records =
        st.records ++ (List.enumFrom i ls).filterMap (navRecord nav) := by
  intro ls
  induction ls with
  | nil => intro i st; simp [runSessionAux, List.enumFrom]
  | cons l rest ih =>
    intro i st
    have hstep := ih (i + 1) (sessionStep nav i l st)
    rw [runSessionAux, hstep]
    show _ = st.records ++ List.filterMap (navRecord nav) ((i, l) :: List.enumFrom (i + 1) rest)
    rw [List.filterMap_cons]
    cases hnav : nav i l with
    | error e => simp [sessionStep, hnav, navRecord]
    | ok pg => simp [sessionStep, hnav, navRecord]

/-- Rating method 1 only ever produces the sentinel or a regex-shaped
string. -/
theorem ratingFirstPass_shape (p : Page) :
    ∀ sels, ratingFirstPass p sels = "N/A" ∨
      ratingShape (ratingFirstPass p sels) = true := by
  intro sels
  induction sels with
  | nil => left; rfl
  | cons s rest ih =>
    cases hq : p.querySelector s with
    | none => simp only [ratingFirstPass, hq]; exact ih
    | some e =>
      simp only [ratingFirstPass, hq]
      split
      · split
        next hs => right; exact hs
        next hs => exact ih
      · exact ih

/-- The resolved rating is the sentinel or a regex-shaped string. -/
theorem extractRating_shape (p : Page) :
    extractRating p = "N/A" ∨ ratingShape (extractRating p) = true := by
  unfold extractRating
  by_cases h1 : ratingFirstPass p ratingSelectors = "N/A"
  · rw [if_pos h1]
    cases hf : (p.querySelectorAll "span").find? ratingSpanPred with
    | none => left; rfl
    | some sp =>
      right
      have hp := List.find?_some hf
      simp only [ratingSpanPred, Bool.and_eq_true] at hp
      exact hp.1.2
  · rw [if_neg h1]
    rcases ratingFirstPass_shape p ratingSelectors with h | h
    · exact absurd h h1
    · right; exact h

/-! ## Claim theorems -/

/-- Claim C1, counterexample: on a page exposing only a name and a rating,
`extractBusinessDetails` leaves the `attributes` and `priceRange` keys
absent (not `"N/A"`), so the produced record does not have all eleven
fields present. -/
theorem spec_C1_counterexample :
    (extractBusinessDetails pageNameRating).attributes = none ∧
      (extractBusinessDetails pageNameRating).priceRange = none ∧
      (extractBusinessDetails pageNameRating).name = some "Blue Bottle Coffee" ∧
      (extractBusinessDetails pageNameRating).rating = some "4.5" := by decide

/-- Claim C1, amended: for every page state the eight fields address,
phone, website, rating, reviews, hours, email and category are present
(string or sentinel); name, attributes and priceRange are omitted when
unresolved — in particular the name-and-rating-only page yields name and
rating populated, the eight fields `"N/A"`, and attributes/priceRange
absent. -/
theorem spec_C1_amended :
    (∀ p : Page,
      (extractBusinessDetails p).address.isSome = true ∧
      (extractBusinessDetails p).phone.isSome = true ∧
      (extractBusinessDetails p).website.isSome = true ∧
      (extractBusinessDetails p).rating.isSome = true ∧
      (extractBusinessDetails p).reviews.isSome = true ∧
      (extractBusinessDetails p).hours.isSome = true ∧
      (extractBusinessDetails p).email.isSome = true ∧
      (extractBusinessDetails p).category.isSome = true) ∧
    extractBusinessDetails pageNameRating =
      { name := some "Blue Bottle Coffee", address := some "N/A",
        phone := some "N/A", website := some "N/A", rating := some "4.5",
        reviews := some "N/A", hours := some "N/A", email := some "N/A",
        category := some "N/A", attributes := none, priceRange := none } := by
  constructor
  · intro p
    simp [extractBusinessDetails]
  · decide

/-- Claim C2: for every feed and every limit at least 1, discovery returns
at most `limit` references with pairwise-distinct locator urls. -/
theorem spec_C2 (feed : Nat → FeedPage) (limit : Int) (hl : 1 ≤ limit) :
    ((collectListingUrls feed limit).length : Int) ≤ limit ∧
      ((collectListingUrls feed limit).map Listing.url).Nodup := by
  constructor
  · unfold collectListingUrls jsSliceTo
    rw [if_pos (by omega)]
    have h := List.length_take_le limit.toNat
      ((loopGo (fun t => harvestListings (feed t)) limit maxScrollAttempts 0 0 []).1)
    omega
  · have h0 : ((([] : List Listing)).map Listing.url).Nodup := by simp
    have h := loopGo_nodup (fun t => harvestListings (feed t)) limit
      maxScrollAttempts 0 0 [] h0
    exact List.Nodup.sublist ((jsSliceTo_sublist _ _).map Listing.url) h

/-- Claim C2, witness at a concrete feed and limit 2. -/
theorem spec_C2_witness :
    ((collectListingUrls (fun _ => feedTwo) 2).length : Int) ≤ 2 ∧
      ((collectListingUrls (fun _ => feedTwo) 2).map Listing.url).Nodup :=
  spec_C2 (fun _ => feedTwo) 2 (by decide)

/-- Claim C3: the discovery loop always performs at most 31 body
executions, and on a feed that never yields a discoverable listing it
returns the empty sequence after exactly 5 iterations (the stagnation
ceiling). -/
theorem spec_C3 (feed : Nat → FeedPage) (limit : Int) :
    collectCount feed limit ≤ 31 ∧
      (1 ≤ limit → (∀ t, harvestListings (feed t) = []) →
        collectListingUrls feed limit = [] ∧ collectCount feed limit = 5) := by
  constructor
  · have h := loopGo_count_le (fun t => harvestListings (feed t)) limit
      maxScrollAttempts 0 0 []
    unfold collectCount
    simpa [maxScrollAttempts] using h
  · intro hl hb
    have h := loopGo_stagnation (fun t => harvestListings (feed t)) limit hb
      (by omega) maxScrollAttempts 0 0 (by norm_num [maxScrollAttempts]) (by norm_num)
    constructor
    · unfold collectListingUrls
      rw [h]
      simp [jsSliceTo]
    · unfold collectCount
      rw [h]

/-- Claim C3, witness: the always-empty feed at limit 3. -/
theorem spec_C3_witness :
    collectListingUrls (fun _ => feedEmpty) 3 = [] ∧
      collectCount (fun _ => feedEmpty) 3 = 5 ∧
      collectCount (fun _ => feedEmpty) 3 ≤ 31 :=
  ⟨((spec_C3 (fun _ => feedEmpty) 3).2 (by decide) (fun _ => by decide)).1,
   ((spec_C3 (fun _ => feedEmpty) 3).2 (by decide) (fun _ => by decide)).2,
   (spec_C3 (fun _ => feedEmpty) 3).1⟩

/-- Claim C4, counterexample: the first rating method validates only the
one-decimal shape, not the 0-to-5 bound, so a page whose rating container
reads `9.9` resolves the rating to `9.9`, which is neither the sentinel
nor a 0-to-5 value. -/
theorem spec_C4_counterexample :
    extractRating pageBadRating = "9.9" ∧
      specRatingZeroToFive "9.9" = false ∧ ("9.9" : String) ≠ "N/A" := by decide

/-- Claim C4, amended: the resolved rating is the sentinel or a string
matching the one-decimal digit pattern (with no 0-to-5 bound in method 1),
and a located element whose text fails the pattern is rejected with the
cascade continuing to the next strategy. -/
theorem spec_C4_amended (p : Page) :
    (extractRating p = "N/A" ∨ ratingShape (extractRating p) = true) ∧
      (∀ (s : String) (rest : List String) (e : Element),
        p.querySelector s = some e → e.textContent ≠ "" →
        ratingShape (jsTrim e.textContent) = false →
        ratingFirstPass p (s :: rest) = ratingFirstPass p rest) := by
  constructor
  · exact extractRating_shape p
  · intro s rest e hq ht hs
    simp only [ratingFirstPass, hq]
    rw [if_pos ht, if_neg (by simp [hs])]

/-- Claim C4, witness: a located element with non-numeric text is rejected
and the cascade continues. -/
theorem spec_C4_witness :
    pageTextRating.querySelector "span.ceJTW" = some { textContent := "Great" } ∧
      ratingShape (jsTrim "Great") = false ∧
      ratingFirstPass pageTextRating ("span.ceJTW" :: ["span.ODSEW-ShBeI-H1e3jb"]) =
        ratingFirstPass pageTextRating ["span.ODSEW-ShBeI-H1e3jb"] :=
  ⟨by decide, by decide,
    (spec_C4_amended pageTextRating).2 "span.ceJTW" ["span.ODSEW-ShBeI-H1e3jb"]
      ({ textContent := "Great" } : Element) (by decide) (by decide) (by decide)⟩

/-- Claim C5, counterexample: on a blank page `extractBusinessDetails`
produces a record whose `name` key is absent — resolving the name field
does not return a string (and does not fall back to the sentinel). -/
theorem spec_C5_counterexample :
    (extractBusinessDetails pageEmpty).name = none ∧
      (extractBusinessDetails pageEmpty).priceRange = none := by decide

/-- Claim C5, amended: the per-field resolvers are total functions (no
exception escapes the embedding); address, phone, website, rating,
reviews, hours, email and category always resolve to a string, defaulting
to the sentinel when no strategy locates an element; name, attributes and
priceRange may instead be left absent. -/
theorem spec_C5_amended (p : Page) :
    ((extractBusinessDetails p).address = some (extractAddress p) ∧
     (extractBusinessDetails p).phone = some (extractPhone p) ∧
     (extractBusinessDetails p).website = some (extractWebsite p) ∧
     (extractBusinessDetails p).rating = some (extractRating p) ∧
     (extractBusinessDetails p).reviews = some (extractReviews p) ∧
     (extractBusinessDetails p).hours = some (extractHours p) ∧
     (extractBusinessDetails p).email = some (extractEmail p) ∧
     (extractBusinessDetails p).category = some (extractCategory p (extractWebsite p))) ∧
    (firstQuery p addressSelectors = none →
      (extractBusinessDetails p).address = some "N/A") ∧
    (firstQuery p phoneSelectors = none →
      (extractBusinessDetails p).phone = some "N/A") ∧
    (firstQuery p websiteSelectors = none →
      (extractBusinessDetails p).website = some "N/A") := by
  refine ⟨⟨rfl, rfl, rfl, rfl, rfl, rfl, rfl, rfl⟩, ?_, ?_, ?_⟩
  · intro h; simp [extractBusinessDetails, extractAddress, h]
  · intro h; simp [extractBusinessDetails, extractPhone, h]
  · intro h; simp [extractBusinessDetails, extractWebsite, h]

/-- Claim C5, witness: the blank page falls back to the sentinel. -/
theorem spec_C5_witness :
    firstQuery pageEmpty addressSelectors = none ∧
      (extractBusinessDetails pageEmpty).address = some "N/A" :=
  ⟨by decide, (spec_C5_amended pageEmpty).2.1 (by decide)⟩

/-- Claim C6: the per-listing loop yields exactly one record per
successfully processed listing, in discovery order; concretely, with
three listings where the second one's navigation throws, the result holds
exactly the first and third records. -/
theorem spec_C6 :
    (∀ (nav : Nat → Listing → Except String Page) (ls : List Listing),
      (runSession nav ls).records = (List.enumFrom 0 ls).filterMap (navRecord nav)) ∧
    (runSession navDemo demoListings).records.map (fun r => r.name) =
      [some "Cafe One", some "Cafe Three"] ∧
    (runSession navDemo demoListings).records.length = 2 := by
  refine ⟨?_, ?_, ?_⟩
  · intro nav ls
    have h := runSessionAux_records nav ls 0 { openPages := 0, records := [] }
    simpa [runSession] using h
  · decide
  · decide

/-- Claim C7, counterexample: the attributes rule does not short-circuit —
after the first selector yields `Wheelchair accessible`, the second
selector is still harvested and contributes `Latino-owned` to the joined
result. -/
theorem spec_C7_counterexample :
    (extractBusinessDetails pageTwoAttrs).attributes =
        some "Wheelchair accessible, Latino-owned" ∧
      (extractBusinessDetails pageTwoAttrs).attributes ≠
        some "Wheelchair accessible" ∧
      pageTwoAttrs.querySelectorAll ".RcCsl .AeaXub .Io6YTe span" =
        [{ textContent := "Wheelchair accessible" }] := by decide

/-- Claim C7, amended: the element-locating cascades (name, address,
phone, website, price, hours sections), the validated rating cascade, the
category cascade and the hours-table cascade are all first-wins and
short-circuiting — a strategy that yields a located (and, where a pattern
exists, validated) value determines the result regardless of all later
strategies; only the attributes rule accumulates across selectors. -/
theorem spec_C7_amended :
    (∀ (p : Page) (s : String) (rest : List String) (e : Element),
       p.querySelector s = some e → firstQuery p (s :: rest) = some e) ∧
    (∀ (p : Page) (s : String) (rest : List String) (e : Element),
       p.querySelector s = some e → e.textContent ≠ "" →
       ratingShape (jsTrim e.textContent) = true →
       ratingFirstPass p (s :: rest) = jsTrim e.textContent) ∧
    (∀ (p : Page) (w s : String) (rest : List String),
       catFold w "N/A" (p.querySelectorAll s) ≠ "N/A" →
       catLoop p w (s :: rest) = catFold w "N/A" (p.querySelectorAll s)) ∧
    (∀ (p : Page) (s : String) (rest : List String) (tbl : Element),
       p.querySelector s = some tbl → tbl.rows.filterMap rowLine ≠ [] →
       hoursFromTables p (s :: rest) =
         some (String.intercalate "; " (tbl.rows.filterMap rowLine))) := by
  refine ⟨?_, ?_, ?_, ?_⟩
  · intro p s rest e h
    simp [firstQuery, h]
  · intro p s rest e h ht hs
    simp [ratingFirstPass, h, ht, hs]
  · intro p w s rest h
    simp only [catLoop]
    rw [if_pos h]
  · intro p s rest tbl h hl
    simp only [hoursFromTables, h]
    rw [if_pos hl]

/-- Claim C7, witness: a located name element wins regardless of the rest
of the cascade. -/
theorem spec_C7_witness :
    pageNameRating.querySelector "h1.fontHeadlineLarge" =
        some { textContent := "Blue Bottle Coffee" } ∧
      firstQuery pageNameRating ("h1.fontHeadlineLarge" :: ["h1.DUwDvf"]) =
        some { textContent := "Blue Bottle Coffee" } :=
  ⟨by decide,
   spec_C7_amended.1 pageNameRating "h1.fontHeadlineLarge" ["h1.DUwDvf"]
     ({ textContent := "Blue Bottle Coffee" } : Element) (by decide)⟩

/-- Claim C8, counterexample: the CSV encoder of `correctcode.js` lists
only nine fields, not the eleven-field order required by the spec. -/
theorem spec_C8_counterexample : csvFieldsCorrectcode ≠ specExportOrder := by decide

/-- Claim C8, amended: the Excel encoder (both variants) and the part_000
CSV encoder use exactly the eleven spec fields in the spec order; the
correctcode.js CSV encoder uses only the first nine of them (omitting
priceRange and attributes). -/
theorem spec_C8_amended :
    excelColumns.map Prod.snd = specExportOrder ∧
      csvFields = specExportOrder ∧
      csvFieldsCorrectcode = specExportOrder.take 9 := by decide

/-- Claim C9 (code bug): a listing whose navigation throws leaves the page
it opened unclosed — after one failing listing the session still has one
open page and no record — while the browser itself is closed on every
exit path on which it was launched. -/
theorem spec_C9_page_leak :
    (runSession (fun _ _ => Except.error "Navigation timeout")
        [⟨"Cafe A", "https://www.google.com/maps/place/a"⟩]).openPages = 1 ∧
      (runSession (fun _ _ => Except.error "Navigation timeout")
        [⟨"Cafe A", "https://www.google.com/maps/place/a"⟩]).records = [] ∧
      (∀ (search : Except String Unit) (feed : Nat → FeedPage)
         (nav : Nat → Listing → Except String Page) (limit : Int),
        (scrapeSession true search feed nav limit).2 = true) := by
  refine ⟨by decide, by decide, ?_⟩
  intro search feed nav limit
  cases search <;> simp [scrapeSession]

/-- Claim C10: a request with non-empty query and location and an integer
limit at most 0 is not rejected — the discovery loop body never executes
and the endpoint answers success with an empty data array. -/
theorem spec_C10 (feed : Nat → FeedPage) (nav : Nat → Listing → Except String Page)
    (q loc : String) (lim : Int) (hq : q ≠ "") (hloc : loc ≠ "") (hlim : lim ≤ 0) :
    handleScrape { query := some q, location := some loc, limit := some lim } feed nav =
      ScrapeResponse.ok [] ∧ collectCount feed lim = 0 := by
  have hloop := loopGo_nonpos (fun t => harvestListings (feed t)) lim hlim
    maxScrollAttempts 0 0
  have hcoll : collectListingUrls feed lim = [] := by
    unfold collectListingUrls
    rw [hloop]
    simp [jsSliceTo]
  constructor
  · simp only [handleScrape, Option.getD_some]
    rw [if_neg (by simp [hq, hloc])]
    unfold scrapeGoogleMapsRecords
    rw [hcoll]
    rfl
  · unfold collectCount
    rw [hloop]

/-- Claim C10, witness at a concrete request with limit -1. -/
theorem spec_C10_witness :
    handleScrape ⟨some "coffee shops", some "Seattle", some (-1)⟩
        (fun _ => feedTwo) navDemo = ScrapeResponse.ok [] ∧
      collectCount (fun _ => feedTwo) (-1) = 0 :=
  spec_C10 (fun _ => feedTwo) navDemo "coffee shops" "Seattle" (-1)
    (by decide) (by decide) (by decide)

end GMaps
